import Mathlib

/-!
Verification development for the DeSciChain on-ledger contracts
(`src/contracts/Escrow.py`, `src/contracts/NameRegistry.py`,
`src/contracts/ModelRegistry.py`), which are PyTeal programs executed by the
Algorand Virtual Machine (AVM).

Modelling conventions (AVM semantics):
* Application global state maps byte keys to values that are either a uint64
  or a byte string.  `app_global_get` on a missing key yields the uint64 `0`.
  For the escrow/model contracts every key is `prefix ++ Itob id` with
  distinct prefixes, so the store is modelled as one total map per prefix.
* The AVM `==` / `!=` opcodes PANIC (abort the whole transaction) when their
  operands have different runtime types; `tealEq`/`tealNe` below return
  `none` in that case.
* The AVM `-` opcode panics on underflow; `checked_sub` models this.
* uint64 arguments are modelled post-`Btoi` as `Nat` (an over-long byte
  argument would only add abort cases; `Itob`/`Btoi` round-trip on uint64).
  uint64 arithmetic is modelled on `Nat`; the AVM panics (aborts the
  transaction) on overflow rather than wrapping, so no modular reduction
  arises in any committed state.
* A transaction either commits all of its writes and inner transactions or
  aborts with no effect; each method therefore returns `Option`, and
  committing a `none` result leaves the state unchanged.
* Byte strings (addresses, names, CIDs) are modelled as `String`.
-/

namespace DeSci

/-- A dynamically typed AVM stack/state value: uint64 or byte string. -/
inductive TealVal where
  | i : Nat → TealVal
  | b : String → TealVal
deriving DecidableEq

/-- AVM `==`: `none` models the panic on comparing different runtime types. -/
def tealEq : TealVal → TealVal → Option Bool
  | TealVal.i a, TealVal.i c => some (decide (a = c))
  | TealVal.b a, TealVal.b c => some (decide (a = c))
  | _, _ => none

/-- AVM `!=`, derived from `==` (same type-mismatch panic). -/
def tealNe (a c : TealVal) : Option Bool := (tealEq a c).map (fun x => !x)

/-- AVM `btoi`: big-endian value of a byte string, panic if longer than 8. -/
def Btoi (s : String) : Option Nat :=
  if s.length ≤ 8 then some (s.foldl (fun a c => a * 256 + c.toNat) 0) else none

/-- AVM `-` on uint64: panics (aborts the transaction) on underflow. -/
def checked_sub (a c : Nat) : Option Nat :=
  if c ≤ a then some (a - c) else none

/-! ## Escrow contract (`src/contracts/Escrow.py`)

Global state: the counter `escrow_count` plus, for every escrow id, the
fields stored under the composite keys `model_`, `buyer_`, `publisher_`,
`amount_`, `status_`, `created_`, `released_`, `refunded_` (each key is the
prefix concatenated with the 8-byte `Itob` of the id, so the per-prefix maps
are independent).  Missing keys read as the AVM default; in-range escrows
always have all fields written. -/

structure EscrowState where
  escrow_count : Nat
  model_ : Nat → Nat
  buyer_ : Nat → String
  publisher_ : Nat → String
  amount_ : Nat → Nat
  status_ : Nat → Nat
  created_ : Nat → Nat
  released_ : Nat → Nat
  refunded_ : Nat → Nat

/-- Escrow status constants from the source. -/
def STATUS_PENDING : Nat := 0

def STATUS_RELEASED : Nat := 1

def STATUS_REFUNDED : Nat := 2

inductive TxnType where
  | pay
  | appl
deriving DecidableEq

inductive OnComplete where
  | NoOp
  | OptIn
  | CloseOut
  | UpdateApplication
  | DeleteApplication
deriving DecidableEq

/-- One application-call request against the escrow app, together with the
fields of its transaction group and the globals the program reads.
uint64 arguments appear post-`Btoi`: `arg1` is `Btoi(application_args[1])`
(model id for `create_escrow`, escrow id elsewhere), `arg2` is the raw bytes
of `application_args[2]` (publisher), `arg3` is `Btoi(application_args[3])`
(price). -/
structure EscrowTxn where
  application_id : Nat
  on_completion : OnComplete
  sender : String
  num_app_args : Nat
  method : String
  arg1 : Nat
  arg2 : String
  arg3 : Nat
  group_size : Nat
  gtxn0_type : TxnType
  gtxn1_type : TxnType
  gtxn0_sender : String
  gtxn0_receiver : String
  gtxn0_amount : Nat
  app_address : String
  now : Nat

/-- A fund-transfer instruction as recorded by the interpreter: the global
state at the moment the inner transaction is submitted, the receiver, and
the amount. -/
abbrev EscrowTransfer := EscrowState × String × Nat

/-- Primitive statements of a straight-line PyTeal `Seq`: assertion, global
state write, inner payment transaction, log emission. -/
inductive Cmd where
  | assertC : (EscrowState → EscrowTxn → Bool) → Cmd
  | putC : (EscrowState → EscrowTxn → EscrowState) → Cmd
  | transferC : (EscrowState → EscrowTxn → String) → (EscrowState → EscrowTxn → Option Nat) → Cmd
  | logC : Cmd

/-- Run a `Seq` of commands.  A failed assertion or a panicking amount
computation aborts the whole request (`none`); on success the final state and
the list of issued transfers (each paired with the state at issue time) are
returned.  Logs have no effect on state and are dropped. -/
def runProg : List Cmd → EscrowState → EscrowTxn → Option (EscrowState × List EscrowTransfer)
  | [], s, _ => some (s, [])
  | Cmd.assertC c :: p, s, t => if c s t then runProg p s t else none
  | Cmd.putC u :: p, s, t => runProg p (u s t) t
  | Cmd.transferC r a :: p, s, t =>
      (a s t).bind fun amt =>
        Option.map (fun x => (x.1, (s, r s t, amt) :: x.2)) (runProg p s t)
  | Cmd.logC :: p, s, t => runProg p s t

/-- `create_escrow` body, Escrow.py lines 30-86. -/
def create_escrow : List Cmd := [
  Cmd.assertC (fun _ t => decide (t.num_app_args = 4)),
  Cmd.assertC (fun _ t => decide (t.group_size = 2)),
  Cmd.assertC (fun _ t => decide (t.gtxn0_type = TxnType.pay)),
  Cmd.assertC (fun _ t => decide (t.gtxn1_type = TxnType.appl)),
  Cmd.assertC (fun _ t => decide (t.gtxn0_receiver = t.app_address)),
  Cmd.assertC (fun _ t => decide (0 < t.gtxn0_amount)),
  Cmd.assertC (fun _ t => decide (t.gtxn0_amount = t.arg3)),
  Cmd.putC (fun s _ => { s with escrow_count := s.escrow_count + 1 }),
  Cmd.putC (fun s t => { s with model_ := fun i => if i = s.escrow_count then t.arg1 else s.model_ i }),
  Cmd.putC (fun s t => { s with buyer_ := fun i => if i = s.escrow_count then t.gtxn0_sender else s.buyer_ i }),
  Cmd.putC (fun s t => { s with publisher_ := fun i => if i = s.escrow_count then t.arg2 else s.publisher_ i }),
  Cmd.putC (fun s t => { s with amount_ := fun i => if i = s.escrow_count then t.gtxn0_amount else s.amount_ i }),
  Cmd.putC (fun s _ => { s with status_ := fun i => if i = s.escrow_count then STATUS_PENDING else s.status_ i }),
  Cmd.putC (fun s t => { s with created_ := fun i => if i = s.escrow_count then t.now else s.created_ i }),
  Cmd.logC]

/-- `release_payment` body, Escrow.py lines 89-131. -/
def release_payment : List Cmd := [
  Cmd.assertC (fun _ t => decide (t.num_app_args = 2)),
  Cmd.assertC (fun _ t => decide (0 < t.arg1)),
  Cmd.assertC (fun s t => decide (t.arg1 ≤ s.escrow_count)),
  Cmd.assertC (fun s t => decide (s.status_ t.arg1 = STATUS_PENDING)),
  Cmd.assertC (fun s t => decide (t.sender = s.publisher_ t.arg1)),
  Cmd.assertC (fun s t => decide (0 < s.amount_ t.arg1)),
  Cmd.putC (fun s t => { s with status_ := fun i => if i = t.arg1 then STATUS_RELEASED else s.status_ i }),
  Cmd.putC (fun s t => { s with released_ := fun i => if i = t.arg1 then t.now else s.released_ i }),
  Cmd.transferC (fun s t => s.publisher_ t.arg1) (fun s t => checked_sub (s.amount_ t.arg1) 1000),
  Cmd.logC]

/-- `refund_payment` body, Escrow.py lines 134-183. -/
def refund_payment : List Cmd := [
  Cmd.assertC (fun _ t => decide (t.num_app_args = 2)),
  Cmd.assertC (fun _ t => decide (0 < t.arg1)),
  Cmd.assertC (fun s t => decide (t.arg1 ≤ s.escrow_count)),
  Cmd.assertC (fun s t => decide (s.status_ t.arg1 = STATUS_PENDING)),
  Cmd.assertC (fun s t => decide (0 < s.amount_ t.arg1)),
  Cmd.assertC (fun s t => decide (t.sender = s.buyer_ t.arg1 ∨ s.created_ t.arg1 + 604800 < t.now)),
  Cmd.putC (fun s t => { s with status_ := fun i => if i = t.arg1 then STATUS_REFUNDED else s.status_ i }),
  Cmd.putC (fun s t => { s with refunded_ := fun i => if i = t.arg1 then t.now else s.refunded_ i }),
  Cmd.transferC (fun s t => s.buyer_ t.arg1) (fun s t => checked_sub (s.amount_ t.arg1) 1000),
  Cmd.logC]

/-- `get_escrow_status` body, Escrow.py lines 186-202. -/
def get_escrow_status : List Cmd := [
  Cmd.assertC (fun _ t => decide (t.num_app_args = 2)),
  Cmd.assertC (fun _ t => decide (0 < t.arg1)),
  Cmd.assertC (fun s t => decide (t.arg1 ≤ s.escrow_count)),
  Cmd.logC, Cmd.logC, Cmd.logC, Cmd.logC, Cmd.logC, Cmd.logC, Cmd.logC]

/-- `get_escrow_count` body, Escrow.py lines 205-208. -/
def get_escrow_count : List Cmd := [Cmd.logC]

/-- The approval program's `Cond` routing, Escrow.py lines 211-254.
`application_id = 0` is the one-time application-creation call;
Update/DeleteApplication and unknown methods are rejected. -/
def escrow_program (s : EscrowState) (t : EscrowTxn) : Option (EscrowState × List EscrowTransfer) :=
  if t.application_id = 0 then some ({ s with escrow_count := 0 }, [])
  else if t.on_completion = OnComplete.NoOp ∧ 1 ≤ t.num_app_args ∧ t.method = "create_escrow" then
    runProg create_escrow s t
  else if t.on_completion = OnComplete.NoOp ∧ 1 ≤ t.num_app_args ∧ t.method = "release_payment" then
    runProg release_payment s t
  else if t.on_completion = OnComplete.NoOp ∧ 1 ≤ t.num_app_args ∧ t.method = "refund_payment" then
    runProg refund_payment s t
  else if t.on_completion = OnComplete.NoOp ∧ 1 ≤ t.num_app_args ∧ t.method = "get_escrow_status" then
    runProg get_escrow_status s t
  else if t.on_completion = OnComplete.NoOp ∧ 1 ≤ t.num_app_args ∧ t.method = "get_escrow_count" then
    runProg get_escrow_count s t
  else if t.on_completion = OnComplete.OptIn then some (s, [])
  else if t.on_completion = OnComplete.CloseOut then some (s, [])
  else none

/-- Ledger commit: a rejected request leaves the global state unchanged. -/
def escrow_commit (s : EscrowState) (t : EscrowTxn) : EscrowState :=
  match escrow_program s t with
  | some x => x.1
  | none => s

/-- Global state of a freshly created escrow application (`on_creation`
writes `escrow_count = 0`; all other keys are absent, reading as defaults). -/
def initEscrowState : EscrowState :=
  { escrow_count := 0
    model_ := fun _ => 0
    buyer_ := fun _ => ""
    publisher_ := fun _ => ""
    amount_ := fun _ => 0
    status_ := fun _ => 0
    created_ := fun _ => 0
    released_ := fun _ => 0
    refunded_ := fun _ => 0 }

/-- States of the deployed escrow application.  After the one-time creation
call, every application call carries the app's nonzero id (the ledger
assigns ids starting from 1), hence the side condition on steps. -/
inductive EscrowReachable : EscrowState → Prop where
  | init : EscrowReachable initEscrowState
  | step (s : EscrowState) (t : EscrowTxn) (h : EscrowReachable s)
      (hid : t.application_id ≠ 0) : EscrowReachable (escrow_commit s t)

/-- The amounts of the transfers issued by a (possibly aborting) run. -/
def payouts (o : Option (EscrowState × List EscrowTransfer)) : List Nat :=
  o.elim [] (fun x => x.2.map (fun p => p.2.2))

/-- The receivers of the transfers issued by a (possibly aborting) run. -/
def receivers (o : Option (EscrowState × List EscrowTransfer)) : List String :=
  o.elim [] (fun x => x.2.map (fun p => p.2.1))

/-- The committed state of a successful run (the input state otherwise). -/
def outState (s : EscrowState) (o : Option (EscrowState × List EscrowTransfer)) : EscrowState :=
  o.elim s Prod.fst

/-! ## Name registry contract (`src/contracts/NameRegistry.py`)

Global state maps `prefix ++ name` to a value; the prefixes `owner_`,
`cid_`, `price_`, `ts_` are pairwise prefix-free, so the store is modelled
as one partial map per prefix (`none` = key absent).  Reading an absent key
yields the AVM default, the uint64 `0` — the contract's existence test
compares the `owner_` read against `Int(0)`, which on a registered name
compares a byte-string owner with a uint64 and therefore panics. -/

/-- One partial field map of the name registry's global state. -/
def NameStore := String → Option TealVal

/-- AVM `app_global_get`: absent keys read as the uint64 `0`. -/
def globalGet (m : NameStore) (k : String) : TealVal := (m k).getD (TealVal.i 0)

structure NameState where
  owner_ : NameStore
  cid_ : NameStore
  price_ : NameStore
  ts_ : NameStore

/-- An application call to the name registry: sender, the raw argument
vector `args` (`args[0]` is the method name, `args[1]` the name), and the
ledger timestamp. -/
structure NameTxn where
  sender : String
  now : Nat
  args : List String

/-- `Txn.application_args[1]`, the name operated on. -/
def nameOf (t : NameTxn) : String := t.args.getD 1 ""

/-- `register_name`, NameRegistry.py lines 20-36. -/
def register_name (s : NameState) (t : NameTxn) : Option (NameState × List String) :=
  if t.args.length = 4 then
    if 0 < (nameOf t).length ∧ (nameOf t).length ≤ 64 then
      if 0 < (t.args.getD 2 "").length then
        match tealEq (globalGet s.owner_ (nameOf t)) (TealVal.i 0) with
        | none => none
        | some e =>
          if e then
            match Btoi (t.args.getD 3 "") with
            | none => none
            | some price =>
              some ({ s with
                  owner_ := fun k => if k = nameOf t then some (TealVal.b t.sender) else s.owner_ k,
                  cid_ := fun k => if k = nameOf t then some (TealVal.b (t.args.getD 2 "")) else s.cid_ k,
                  price_ := fun k => if k = nameOf t then some (TealVal.i price) else s.price_ k,
                  ts_ := fun k => if k = nameOf t then some (TealVal.i t.now) else s.ts_ k },
                ["REGISTERED:" ++ nameOf t ++ ":" ++ t.sender])
          else none
      else none
    else none
  else none

/-- Render a stored value inside a log line (stands in for `Concat`/`Itob`). -/
def tealShow : TealVal → String
  | TealVal.i n => toString n
  | TealVal.b s => s

/-- `resolve_name`, NameRegistry.py lines 39-53. -/
def resolve_name (s : NameState) (t : NameTxn) : Option (NameState × List String) :=
  if t.args.length = 2 then
    if 0 < (nameOf t).length ∧ (nameOf t).length ≤ 64 then
      match tealNe (globalGet s.owner_ (nameOf t)) (TealVal.i 0) with
      | none => none
      | some e =>
        if e then
          some (s, ["OWNER:" ++ tealShow (globalGet s.owner_ (nameOf t)),
                    "CID:" ++ tealShow (globalGet s.cid_ (nameOf t)),
                    "PRICE:" ++ tealShow (globalGet s.price_ (nameOf t)),
                    "TIMESTAMP:" ++ tealShow (globalGet s.ts_ (nameOf t))])
        else none
    else none
  else none

/-- `update_name`, NameRegistry.py lines 56-71. -/
def update_name (s : NameState) (t : NameTxn) : Option (NameState × List String) :=
  if t.args.length = 4 then
    if 0 < (nameOf t).length ∧ (nameOf t).length ≤ 64 then
      match tealNe (globalGet s.owner_ (nameOf t)) (TealVal.i 0) with
      | none => none
      | some e1 =>
        if e1 then
          match tealEq (globalGet s.owner_ (nameOf t)) (TealVal.b t.sender) with
          | none => none
          | some e2 =>
            if e2 then
              match Btoi (t.args.getD 3 "") with
              | none => none
              | some price =>
                some ({ s with
                    cid_ := fun k => if k = nameOf t then some (TealVal.b (t.args.getD 2 "")) else s.cid_ k,
                    price_ := fun k => if k = nameOf t then some (TealVal.i price) else s.price_ k,
                    ts_ := fun k => if k = nameOf t then some (TealVal.i t.now) else s.ts_ k },
                  ["UPDATED:" ++ nameOf t])
            else none
        else none
    else none
  else none

/-- `transfer_name`, NameRegistry.py lines 74-89. -/
def transfer_name (s : NameState) (t : NameTxn) : Option (NameState × List String) :=
  if t.args.length = 3 then
    if 0 < (nameOf t).length ∧ (nameOf t).length ≤ 64 then
      if (t.args.getD 2 "").length = 32 then
        match tealNe (globalGet s.owner_ (nameOf t)) (TealVal.i 0) with
        | none => none
        | some e1 =>
          if e1 then
            match tealEq (globalGet s.owner_ (nameOf t)) (TealVal.b t.sender) with
            | none => none
            | some e2 =>
              if e2 then
                some ({ s with
                    owner_ := fun k => if k = nameOf t then some (TealVal.b (t.args.getD 2 "")) else s.owner_ k,
                    ts_ := fun k => if k = nameOf t then some (TealVal.i t.now) else s.ts_ k },
                  ["TRANSFERRED:" ++ nameOf t ++ ":" ++ t.args.getD 2 ""])
              else none
          else none
      else none
    else none
  else none

/-- `delete_name`, NameRegistry.py lines 92-108. -/
def delete_name (s : NameState) (t : NameTxn) : Option (NameState × List String) :=
  if t.args.length = 2 then
    if 0 < (nameOf t).length ∧ (nameOf t).length ≤ 64 then
      match tealNe (globalGet s.owner_ (nameOf t)) (TealVal.i 0) with
      | none => none
      | some e1 =>
        if e1 then
          match tealEq (globalGet s.owner_ (nameOf t)) (TealVal.b t.sender) with
          | none => none
          | some e2 =>
            if e2 then
              some ({ owner_ := fun k => if k = nameOf t then none else s.owner_ k,
                      cid_ := fun k => if k = nameOf t then none else s.cid_ k,
                      price_ := fun k => if k = nameOf t then none else s.price_ k,
                      ts_ := fun k => if k = nameOf t then none else s.ts_ k },
                ["DELETED:" ++ nameOf t])
            else none
        else none
    else none
  else none

/-- `name_exists`, NameRegistry.py lines 111-123. -/
def name_exists (s : NameState) (t : NameTxn) : Option (NameState × List String) :=
  if t.args.length = 2 then
    if 0 < (nameOf t).length ∧ (nameOf t).length ≤ 64 then
      match tealNe (globalGet s.owner_ (nameOf t)) (TealVal.i 0) with
      | none => none
      | some e =>
        some (s, ["EXISTS:" ++ nameOf t ++ ":" ++ (if e then "1" else "0")])
    else none
  else none

/-- The name registry's `Cond` routing over NoOp method calls,
NameRegistry.py lines 126-148 (the one-time creation call and OptIn/CloseOut
acknowledgements touch no global state and are subsumed by the reject
default here, which also commits no change). -/
def name_program (s : NameState) (t : NameTxn) : Option (NameState × List String) :=
  if t.args.getD 0 "" = "register" then register_name s t
  else if t.args.getD 0 "" = "resolve" then resolve_name s t
  else if t.args.getD 0 "" = "update" then update_name s t
  else if t.args.getD 0 "" = "transfer" then transfer_name s t
  else if t.args.getD 0 "" = "delete" then delete_name s t
  else if t.args.getD 0 "" = "exists" then name_exists s t
  else none

/-- Ledger commit for the name registry: rejected requests change nothing. -/
def name_commit (s : NameState) (t : NameTxn) : NameState :=
  match name_program s t with
  | some x => x.1
  | none => s

/-- `s2` is obtainable from `s1` by committing any sequence of requests. -/
inductive NameEvolves : NameState → NameState → Prop where
  | refl (s : NameState) : NameEvolves s s
  | step (s s' : NameState) (t : NameTxn) (h : NameEvolves s s') :
      NameEvolves s (name_commit s' t)

/-- Empty name-registry state (nothing registered). -/
def initNameState : NameState :=
  { owner_ := fun _ => none, cid_ := fun _ => none, price_ := fun _ => none, ts_ := fun _ => none }

/-! ## Model registry contract (`src/contracts/ModelRegistry.py`)

Only `model_exists` (lines 89-104) is needed by the claims; it reads the
`model_count` counter and the `cid_` field map.  A `cid_` key is present
(holding the byte-string CID) exactly for published ids; an absent key
reads as the AVM default, the uint64 `0`. -/

structure ModelState where
  model_count : Nat
  cid_ : Nat → Option String

/-- AVM `len`: byte length of a byte string; panics on a uint64 argument. -/
def tealLen : TealVal → Option Nat
  | TealVal.i _ => none
  | TealVal.b c => some c.length

/-- `model_exists`, ModelRegistry.py lines 89-104: asserts a two-argument
call and `Btoi(args[1]) > 0`, then logs `1` iff the id is in range with a
non-empty stored CID.  TEAL `And` evaluates both operands, so the
`Len(App.globalGet(cid_ ++ Itob(id)))` operand is computed even when the
range check is false; on an absent `cid_` key that read yields the uint64
`0` and `len` panics, aborting the call.  `model_id` is the decoded uint64
argument. -/
def model_exists (s : ModelState) (num_args : Nat) (model_id : Nat) : Option (ModelState × List String) :=
  if num_args = 2 then
    if 0 < model_id then
      match tealLen ((s.cid_ model_id).elim (TealVal.i 0) TealVal.b) with
      | none => none
      | some cidlen =>
          some (s, ["MODEL_EXISTS:" ++
            (if model_id ≤ s.model_count ∧ 0 < cidlen then "1" else "0")])
    else none
  else none

/-- Empty model-registry state. -/
def initModelState : ModelState := { model_count := 0, cid_ := fun _ => none }

/-! ## Concrete requests used to exercise the model -/

/-- A well-formed `create_escrow` group: buyer pays 2000000 microAlgos to the
app address alongside the application call. -/
def createTxn1 : EscrowTxn :=
  { application_id := 1
    on_completion := OnComplete.NoOp
    sender := "BUYER1"
    num_app_args := 4
    method := "create_escrow"
    arg1 := 7
    arg2 := "PUBLISHER1"
    arg3 := 2000000
    group_size := 2
    gtxn0_type := TxnType.pay
    gtxn1_type := TxnType.appl
    gtxn0_sender := "BUYER1"
    gtxn0_receiver := "ESCROWAPP"
    gtxn0_amount := 2000000
    app_address := "ESCROWAPP"
    now := 100 }

/-- State after `createTxn1` commits on the fresh app: escrow 1, Pending. -/
def escrowS1 : EscrowState := escrow_commit initEscrowState createTxn1

/-- `release_payment(1)` called by the stored publisher. -/
def releaseTxn : EscrowTxn :=
  { createTxn1 with num_app_args := 2, method := "release_payment",
                    sender := "PUBLISHER1", arg1 := 1, now := 200 }

/-- State after escrow 1 has been released (terminal status). -/
def escrowS2 : EscrowState := escrow_commit escrowS1 releaseTxn

/-- `refund_payment(1)` by an unrelated third party well past the 7-day
timeout (`now = 1000000 > 100 + 604800`). -/
def lateRefundTxn : EscrowTxn :=
  { createTxn1 with num_app_args := 2, method := "refund_payment",
                    sender := "THIRDPARTY", arg1 := 1, now := 1000000 }

/-- A `create_escrow` group whose payment does not match the declared price. -/
def createTxnBad : EscrowTxn := { createTxn1 with arg3 := 999999 }

/-- A `create_escrow` group whose payment (500 microAlgos) is smaller than
the flat 1000-microAlgo fee. -/
def createTxnSmall : EscrowTxn := { createTxn1 with arg3 := 500, gtxn0_amount := 500 }

/-- State holding a Pending escrow whose amount (500) is below the fee. -/
def escrowSmall : EscrowState := escrow_commit initEscrowState createTxnSmall

/-- A `create_escrow` group in which the application call is sent by an agent
distinct from the account funding the payment. -/
def createTxn2 : EscrowTxn := { createTxn1 with sender := "AGENT", gtxn0_sender := "BUYER2" }

/-- `refund_payment(1)` by the account that funded `createTxn2`'s payment,
within the timeout window. -/
def buyerRefundTxn : EscrowTxn :=
  { createTxn1 with num_app_args := 2, method := "refund_payment",
                    sender := "BUYER2", arg1 := 1, now := 150 }

/-- `get_escrow_status(1)`. -/
def statusTxn : EscrowTxn :=
  { createTxn1 with num_app_args := 2, method := "get_escrow_status", arg1 := 1, now := 300 }

/-- `register("alice.desci", cid, price)` by `OWNERA`. -/
def regTxn1 : NameTxn :=
  { sender := "OWNERA", now := 50, args := ["register", "alice.desci", "QmCID1", "p"] }

/-- A second `register` for the same name by a different caller. -/
def regTxn2 : NameTxn :=
  { sender := "OWNERB", now := 60, args := ["register", "alice.desci", "QmCID2", "q"] }

/-- State after `regTxn1` commits on the empty registry. -/
def nameS1 : NameState := name_commit initNameState regTxn1

/-- `delete("alice.desci")` by the stored owner `OWNERA`. -/
def delTxn1 : NameTxn := { sender := "OWNERA", now := 70, args := ["delete", "alice.desci"] }

/-- `exists("ghost.desci")` for a never-registered name. -/
def existsTxn : NameTxn := { sender := "ANY", now := 90, args := ["exists", "ghost.desci"] }

/-- The committed registry state of a successful run (input state otherwise). -/
def outNameState (s : NameState) (o : Option (NameState × List String)) : NameState :=
  o.elim s Prod.fst

/-! ## Result states of the escrow methods -/

/-- The global state written by a successful `create_escrow` (all six field
writes re-read the incremented counter, so they key on `escrow_count + 1`). -/
def create_result (s : EscrowState) (t : EscrowTxn) : EscrowState :=
  { escrow_count := s.escrow_count + 1
    model_ := fun i => if i = s.escrow_count + 1 then t.arg1 else s.model_ i
    buyer_ := fun i => if i = s.escrow_count + 1 then t.gtxn0_sender else s.buyer_ i
    publisher_ := fun i => if i = s.escrow_count + 1 then t.arg2 else s.publisher_ i
    amount_ := fun i => if i = s.escrow_count + 1 then t.gtxn0_amount else s.amount_ i
    status_ := fun i => if i = s.escrow_count + 1 then STATUS_PENDING else s.status_ i
    created_ := fun i => if i = s.escrow_count + 1 then t.now else s.created_ i
    released_ := s.released_
    refunded_ := s.refunded_ }

/-- The global state written by a successful `release_payment`. -/
def release_result (s : EscrowState) (t : EscrowTxn) : EscrowState :=
  { s with status_ := fun i => if i = t.arg1 then STATUS_RELEASED else s.status_ i,
           released_ := fun i => if i = t.arg1 then t.now else s.released_ i }

/-- The global state written by a successful `refund_payment`. -/
def refund_result (s : EscrowState) (t : EscrowTxn) : EscrowState :=
  { s with status_ := fun i => if i = t.arg1 then STATUS_REFUNDED else s.status_ i,
           refunded_ := fun i => if i = t.arg1 then t.now else s.refunded_ i }

/-! ## Input-output characterisation of each escrow method -/

/-- `create_escrow` succeeds exactly when the checks of Escrow.py lines 32-42
pass, writes the new escrow record, and issues no transfer. -/
theorem create_spec (s : EscrowState) (t : EscrowTxn) :
    runProg create_escrow s t =
      if t.num_app_args = 4 ∧ t.group_size = 2 ∧ t.gtxn0_type = TxnType.pay ∧
         t.gtxn1_type = TxnType.appl ∧ t.gtxn0_receiver = t.app_address ∧
         0 < t.gtxn0_amount ∧ t.gtxn0_amount = t.arg3
      then some (create_result s t, []) else none := by
  by_cases h1 : t.num_app_args = 4 <;>
    by_cases h2 : t.group_size = 2 <;>
    by_cases h3 : t.gtxn0_type = TxnType.pay <;>
    by_cases h4 : t.gtxn1_type = TxnType.appl <;>
    by_cases h5 : t.gtxn0_receiver = t.app_address <;>
    by_cases h6 : 0 < t.gtxn0_amount <;>
    by_cases h7 : t.gtxn0_amount = t.arg3 <;>
    simp [runProg, create_escrow, create_result, h1, h2, h3, h4, h5, h6, h7]

/-- `release_payment` succeeds exactly when the checks of Escrow.py lines
91-98 pass and the fee subtraction does not underflow; it then flips the
status, stamps `released_`, and issues one transfer of `amount - 1000` to
the stored publisher, recorded against the already-updated state. -/
theorem release_spec (s : EscrowState) (t : EscrowTxn) :
    runProg release_payment s t =
      if t.num_app_args = 2 ∧ 0 < t.arg1 ∧ t.arg1 ≤ s.escrow_count ∧
         s.status_ t.arg1 = STATUS_PENDING ∧ t.sender = s.publisher_ t.arg1 ∧
         0 < s.amount_ t.arg1 ∧ 1000 ≤ s.amount_ t.arg1
      then some (release_result s t,
             [(release_result s t, s.publisher_ t.arg1, s.amount_ t.arg1 - 1000)])
      else none := by
  by_cases h1 : t.num_app_args = 2 <;>
    by_cases h2 : 0 < t.arg1 <;>
    by_cases h3 : t.arg1 ≤ s.escrow_count <;>
    by_cases h4 : s.status_ t.arg1 = STATUS_PENDING <;>
    by_cases h5 : t.sender = s.publisher_ t.arg1 <;>
    by_cases h6 : 0 < s.amount_ t.arg1 <;>
    by_cases h7 : 1000 ≤ s.amount_ t.arg1 <;>
    simp [runProg, release_payment, release_result, checked_sub, h1, h2, h3, h4, h5, h6, h7]

/-- `refund_payment` succeeds exactly when the checks of Escrow.py lines
136-150 pass (including the buyer-or-timeout authorization disjunction) and
the fee subtraction does not underflow; it then flips the status, stamps
`refunded_`, and issues one transfer of `amount - 1000` to the stored buyer,
recorded against the already-updated state. -/
theorem refund_spec (s : EscrowState) (t : EscrowTxn) :
    runProg refund_payment s t =
      if t.num_app_args = 2 ∧ 0 < t.arg1 ∧ t.arg1 ≤ s.escrow_count ∧
         s.status_ t.arg1 = STATUS_PENDING ∧ 0 < s.amount_ t.arg1 ∧
         (t.sender = s.buyer_ t.arg1 ∨ s.created_ t.arg1 + 604800 < t.now) ∧
         1000 ≤ s.amount_ t.arg1
      then some (refund_result s t,
             [(refund_result s t, s.buyer_ t.arg1, s.amount_ t.arg1 - 1000)])
      else none := by
  by_cases h1 : t.num_app_args = 2 <;>
    by_cases h2 : 0 < t.arg1 <;>
    by_cases h3 : t.arg1 ≤ s.escrow_count <;>
    by_cases h4 : s.status_ t.arg1 = STATUS_PENDING <;>
    by_cases h5 : 0 < s.amount_ t.arg1 <;>
    by_cases h6 : t.sender = s.buyer_ t.arg1 ∨ s.created_ t.arg1 + 604800 < t.now <;>
    by_cases h7 : 1000 ≤ s.amount_ t.arg1 <;>
    simp [runProg, refund_payment, refund_result, checked_sub, h1, h2, h3, h4, h5, h6, h7]

/-- `get_escrow_status` succeeds exactly on an in-range id with a two-element
argument vector, changes nothing, and issues no transfer. -/
theorem status_spec (s : EscrowState) (t : EscrowTxn) :
    runProg get_escrow_status s t =
      if t.num_app_args = 2 ∧ 0 < t.arg1 ∧ t.arg1 ≤ s.escrow_count
      then some (s, []) else none := by
  by_cases h1 : t.num_app_args = 2 <;>
    by_cases h2 : 0 < t.arg1 <;>
    by_cases h3 : t.arg1 ≤ s.escrow_count <;>
    simp [runProg, get_escrow_status, h1, h2, h3]

/-- `get_escrow_count` always succeeds, changes nothing, issues no transfer. -/
theorem count_spec (s : EscrowState) (t : EscrowTxn) :
    runProg get_escrow_count s t = some (s, []) := by
  simp [runProg, get_escrow_count]

/-- Every committed request either leaves the state unchanged or is one of
the three mutating methods, whose asserted preconditions are then available.
The one-time creation call (`application_id = 0`) is excluded. -/
theorem escrow_commit_cases (s : EscrowState) (t : EscrowTxn) (hid : t.application_id ≠ 0) :
    escrow_commit s t = s ∨
    (escrow_commit s t = create_result s t ∧ 0 < t.gtxn0_amount) ∨
    (escrow_commit s t = release_result s t ∧ t.arg1 ≤ s.escrow_count ∧
       s.status_ t.arg1 = STATUS_PENDING) ∨
    (escrow_commit s t = refund_result s t ∧ t.arg1 ≤ s.escrow_count ∧
       s.status_ t.arg1 = STATUS_PENDING) := by
  unfold escrow_commit escrow_program
  split_ifs with h0 hb1 hb2 hb3 hb4 hb5 hb6 hb7
  · exact absurd h0 hid
  · rw [create_spec]
    split_ifs with hc
    · exact Or.inr (Or.inl ⟨rfl, hc.2.2.2.2.2.1⟩)
    · exact Or.inl rfl
  · rw [release_spec]
    split_ifs with hc
    · exact Or.inr (Or.inr (Or.inl ⟨rfl, hc.2.2.1, hc.2.2.2.1⟩))
    · exact Or.inl rfl
  · rw [refund_spec]
    split_ifs with hc
    · exact Or.inr (Or.inr (Or.inr ⟨rfl, hc.2.2.1, hc.2.2.2.1⟩))
    · exact Or.inl rfl
  · rw [status_spec]
    split_ifs
    · exact Or.inl rfl
    · exact Or.inl rfl
  · rw [count_spec]
    exact Or.inl rfl
  · exact Or.inl rfl
  · exact Or.inl rfl
  · exact Or.inl rfl

/-- Reachability invariant: ids beyond the counter have never been written,
so their status reads as the default `0` (Pending is never observed there,
and `create_escrow` only ever initialises the fresh id `count + 1`). -/
theorem reachable_status_out_of_range {s : EscrowState} (h : EscrowReachable s) :
    ∀ id, s.escrow_count < id → s.status_ id = 0 := by
  induction h with
  | init => exact fun id _ => rfl
  | step s t h hid ih =>
    intro id hlt
    rcases escrow_commit_cases s t hid with hc | ⟨hc, -⟩ | ⟨hc, hle, -⟩ | ⟨hc, hle, -⟩
    · rw [hc] at hlt ⊢
      exact ih id hlt
    · rw [hc] at hlt ⊢
      simp only [create_result] at hlt ⊢
      rw [if_neg (by omega)]
      exact ih id (by omega)
    · rw [hc] at hlt ⊢
      simp only [release_result] at hlt ⊢
      rw [if_neg (by omega)]
      exact ih id hlt
    · rw [hc] at hlt ⊢
      simp only [refund_result] at hlt ⊢
      rw [if_neg (by omega)]
      exact ih id hlt

/-! ## Claims about the escrow engine -/

/-- C1: in every execution of `release_payment` or `refund_payment` that
issues a fund-transfer instruction, the write setting the stored status to
the terminal value (Released resp. Refunded) and stamping the terminal
timestamp happens strictly before the transfer is issued: the state recorded
at the moment of issue already carries the terminal status and timestamp,
and no request of the program ever issues a transfer while the stored status
is still Pending. -/
theorem c1_terminal_write_precedes_transfer (s : EscrowState) (t : EscrowTxn) :
    ((runProg release_payment s t).isSome = true →
      (runProg release_payment s t).elim []
        (fun x => x.2.map (fun p => (p.1.status_ t.arg1, p.1.released_ t.arg1))) =
        [(STATUS_RELEASED, t.now)]) ∧
    ((runProg refund_payment s t).isSome = true →
      (runProg refund_payment s t).elim []
        (fun x => x.2.map (fun p => (p.1.status_ t.arg1, p.1.refunded_ t.arg1))) =
        [(STATUS_REFUNDED, t.now)]) ∧
    ((escrow_program s t).elim True
      (fun x => ∀ p ∈ x.2, p.1.status_ t.arg1 ≠ STATUS_PENDING)) := by
  refine ⟨?_, ?_, ?_⟩
  · rw [release_spec]
    split_ifs with hc
    · intro _
      simp [release_result]
    · intro h
      simp at h
  · rw [refund_spec]
    split_ifs with hc
    · intro _
      simp [refund_result]
    · intro h
      simp at h
  · unfold escrow_program
    split_ifs with h0 hb1 hb2 hb3 hb4 hb5 hb6 hb7
    · simp
    · rw [create_spec]
      split_ifs <;> simp
    · rw [release_spec]
      split_ifs with hc
      · simp only [release_result, Option.elim, List.mem_singleton, STATUS_PENDING]
        rintro p rfl
        simp [STATUS_RELEASED]
      · simp
    · rw [refund_spec]
      split_ifs with hc
      · simp only [refund_result, Option.elim, List.mem_singleton, STATUS_PENDING]
        rintro p rfl
        simp [STATUS_REFUNDED]
      · simp
    · rw [status_spec]
      split_ifs <;> simp
    · rw [count_spec]
      simp
    · simp
    · simp
    · simp

/-- Witness for C1 at a concrete successful release. -/
theorem c1_terminal_write_precedes_transfer_witness :
    (runProg release_payment escrowS1 releaseTxn).isSome = true ∧
    (runProg release_payment escrowS1 releaseTxn).elim []
      (fun x => x.2.map (fun p => (p.1.status_ releaseTxn.arg1, p.1.released_ releaseTxn.arg1))) =
      [(STATUS_RELEASED, releaseTxn.now)] :=
  ⟨rfl, (c1_terminal_write_precedes_transfer escrowS1 releaseTxn).1 rfl⟩

/-- C2: `create_escrow` succeeds only if the group carries an inbound
payment to the application's own address with a strictly positive amount
exactly equal to the declared price argument; and whenever any precondition
fails the request commits no change at all to the stored state. -/
theorem c2_create_payment_checks_and_atomicity (s : EscrowState) (t : EscrowTxn)
    (hid : t.application_id ≠ 0) (hoc : t.on_completion = OnComplete.NoOp)
    (hm : t.method = "create_escrow") (hn : 1 ≤ t.num_app_args) :
    ((escrow_program s t).isSome = true →
       t.gtxn0_receiver = t.app_address ∧ 0 < t.gtxn0_amount ∧ t.gtxn0_amount = t.arg3) ∧
    (escrow_program s t = none → escrow_commit s t = s) := by
  have hroute : escrow_program s t = runProg create_escrow s t := by
    unfold escrow_program
    rw [if_neg hid, if_pos ⟨hoc, hn, hm⟩]
  constructor
  · rw [hroute, create_spec]
    split_ifs with hc
    · exact fun _ => ⟨hc.2.2.2.2.1, hc.2.2.2.2.2.1, hc.2.2.2.2.2.2⟩
    · intro h
      simp at h
  · intro h
    simp [escrow_commit, h]

/-- Witness for C2: a well-formed group succeeds (and its payment matches),
a price-mismatched group is rejected with the state unchanged. -/
theorem c2_create_payment_checks_and_atomicity_witness :
    ((escrow_program initEscrowState createTxn1).isSome = true ∧
       (createTxn1.gtxn0_receiver = createTxn1.app_address ∧ 0 < createTxn1.gtxn0_amount ∧
        createTxn1.gtxn0_amount = createTxn1.arg3)) ∧
    (escrow_program initEscrowState createTxnBad = none ∧
       escrow_commit initEscrowState createTxnBad = initEscrowState) :=
  ⟨⟨rfl, (c2_create_payment_checks_and_atomicity initEscrowState createTxn1
      (by decide) rfl rfl (by decide)).1 rfl⟩,
   ⟨rfl, (c2_create_payment_checks_and_atomicity initEscrowState createTxnBad
      (by decide) rfl rfl (by decide)).2 rfl⟩⟩

/-- C3: whenever `release_payment` or `refund_payment` succeeds on an escrow
whose stored amount is `a`, the single issued transfer carries exactly
`a - 1000` (the flat fee constant), the subtraction being exact because
success forces `1000 ≤ a`; in particular the engine never pays out more than
`a - 1000` for that escrow in the call. -/
theorem c3_payout_amount_minus_fee (s : EscrowState) (t : EscrowTxn) :
    ((runProg release_payment s t).isSome = true →
       1000 ≤ s.amount_ t.arg1 ∧
       payouts (runProg release_payment s t) = [s.amount_ t.arg1 - 1000]) ∧
    ((runProg refund_payment s t).isSome = true →
       1000 ≤ s.amount_ t.arg1 ∧
       payouts (runProg refund_payment s t) = [s.amount_ t.arg1 - 1000]) := by
  constructor
  · rw [release_spec]
    split_ifs with hc
    · exact fun _ => ⟨hc.2.2.2.2.2.2, by simp [payouts]⟩
    · intro h
      simp at h
  · rw [refund_spec]
    split_ifs with hc
    · exact fun _ => ⟨hc.2.2.2.2.2.2, by simp [payouts]⟩
    · intro h
      simp at h

/-- Witness for C3 at a concrete successful release of a 2000000-microAlgo
escrow. -/
theorem c3_payout_amount_minus_fee_witness :
    (runProg release_payment escrowS1 releaseTxn).isSome = true ∧
    (1000 ≤ escrowS1.amount_ releaseTxn.arg1 ∧
     payouts (runProg release_payment escrowS1 releaseTxn) =
       [escrowS1.amount_ releaseTxn.arg1 - 1000]) :=
  ⟨rfl, (c3_payout_amount_minus_fee escrowS1 releaseTxn).1 rfl⟩

/-- C4 counterexample: a reachable Pending escrow with stored amount 500
(created with price 500 > 0) cannot be refunded even by an arbitrary caller
strictly after `created_at + 604800`: the AVM fee subtraction
`amount - 1000` underflows and panics, so the call aborts — refuting
"succeeds for any caller whatsoever once the deadline has passed". -/
theorem c4_refund_counterexample :
    escrowSmall.status_ 1 = STATUS_PENDING ∧ 1 ≤ escrowSmall.escrow_count ∧
    escrowSmall.created_ 1 + 604800 < lateRefundTxn.now ∧
    lateRefundTxn.num_app_args = 2 ∧ lateRefundTxn.arg1 = 1 ∧
    runProg refund_payment escrowSmall lateRefundTxn = none :=
  ⟨rfl, by decide, by decide, rfl, rfl, rfl⟩

/-- C4 amended: for a Pending in-range escrow whose stored amount covers the
flat 1000-microAlgo fee, `refund_payment` by a non-buyer caller fails while
`now ≤ created_at + 604800`, and succeeds for any caller once
`now > created_at + 604800`, paying the stored buyer. -/
theorem c4_refund_authorization_amended (s : EscrowState) (t : EscrowTxn)
    (h2 : t.num_app_args = 2) (hlo : 0 < t.arg1) (hhi : t.arg1 ≤ s.escrow_count)
    (hpend : s.status_ t.arg1 = STATUS_PENDING) (hfee : 1000 ≤ s.amount_ t.arg1) :
    (t.sender ≠ s.buyer_ t.arg1 → t.now ≤ s.created_ t.arg1 + 604800 →
       runProg refund_payment s t = none) ∧
    (s.created_ t.arg1 + 604800 < t.now →
       runProg refund_payment s t =
         some (refund_result s t,
           [(refund_result s t, s.buyer_ t.arg1, s.amount_ t.arg1 - 1000)])) := by
  constructor
  · intro hns hle
    rw [refund_spec, if_neg]
    intro hc
    rcases hc.2.2.2.2.2.1 with h | h
    · exact hns h
    · omega
  · intro hlate
    rw [refund_spec, if_pos]
    exact ⟨h2, hlo, hhi, hpend, by omega, Or.inr hlate, hfee⟩

/-- Witness for the amended C4: a third party refunds escrow 1 after the
timeout and the stored buyer is paid `2000000 - 1000`. -/
theorem c4_refund_authorization_amended_witness :
    escrowS1.status_ 1 = STATUS_PENDING ∧ 1000 ≤ escrowS1.amount_ 1 ∧
    escrowS1.created_ 1 + 604800 < lateRefundTxn.now ∧
    runProg refund_payment escrowS1 lateRefundTxn =
      some (refund_result escrowS1 lateRefundTxn,
        [(refund_result escrowS1 lateRefundTxn, escrowS1.buyer_ lateRefundTxn.arg1,
          escrowS1.amount_ lateRefundTxn.arg1 - 1000)]) :=
  ⟨rfl, by decide, by decide,
    (c4_refund_authorization_amended escrowS1 lateRefundTxn rfl (by decide) (by decide) rfl
        (by decide)).2 (by decide)⟩

/-- C5: in any reachable state, once an escrow's stored status is terminal
(Released or Refunded) no committed request ever changes it again, and any
`release_payment` or `refund_payment` call aimed at that escrow is rejected
outright (hence issues no fund transfer: a rejected request commits
nothing). -/
theorem c5_terminal_status_immutable (s : EscrowState) (t : EscrowTxn) (id : Nat)
    (hR : EscrowReachable s) (hid : t.application_id ≠ 0)
    (hterm : s.status_ id = STATUS_RELEASED ∨ s.status_ id = STATUS_REFUNDED) :
    (escrow_commit s t).status_ id = s.status_ id ∧
    (t.on_completion = OnComplete.NoOp →
       t.method = "release_payment" ∨ t.method = "refund_payment" →
       t.arg1 = id → escrow_program s t = none) := by
  have hrange : id ≤ s.escrow_count := by
    by_contra hgt
    push_neg at hgt
    have h0 := reachable_status_out_of_range hR id hgt
    rcases hterm with h | h <;> rw [h0] at h <;> exact absurd h (by decide)
  have hstat : ¬ s.status_ t.arg1 = STATUS_PENDING ∨ t.arg1 ≠ id := by
    by_cases he : t.arg1 = id
    · subst he
      left
      rcases hterm with h | h <;> rw [h] <;> decide
    · exact Or.inr he
  constructor
  · rcases escrow_commit_cases s t hid with hc | ⟨hc, -⟩ | ⟨hc, hle, hpend⟩ | ⟨hc, hle, hpend⟩
    · rw [hc]
    · rw [hc]
      simp only [create_result]
      rw [if_neg (by omega)]
    · rw [hc]
      simp only [release_result]
      have hne : ¬ id = t.arg1 := by
        intro he
        rw [he, hpend] at hterm
        rcases hterm with h | h <;> exact absurd h (by decide)
      rw [if_neg hne]
    · rw [hc]
      simp only [refund_result]
      have hne : ¬ id = t.arg1 := by
        intro he
        rw [he, hpend] at hterm
        rcases hterm with h | h <;> exact absurd h (by decide)
      rw [if_neg hne]
  · intro hoc hm harg
    have hpend : ¬ s.status_ t.arg1 = STATUS_PENDING := by
      rw [harg]
      rcases hterm with h | h <;> rw [h] <;> decide
    unfold escrow_program
    rw [if_neg hid]
    by_cases hn : 1 ≤ t.num_app_args
    · rcases hm with hm | hm
      · rw [if_neg (by rintro ⟨-, -, h⟩; rw [hm] at h; exact absurd h (by decide)),
            if_pos ⟨hoc, hn, hm⟩, release_spec,
            if_neg (fun hc => hpend hc.2.2.2.1)]
      · rw [if_neg (by rintro ⟨-, -, h⟩; rw [hm] at h; exact absurd h (by decide)),
            if_neg (by rintro ⟨-, -, h⟩; rw [hm] at h; exact absurd h (by decide)),
            if_pos ⟨hoc, hn, hm⟩, refund_spec,
            if_neg (fun hc => hpend hc.2.2.2.1)]
    · rw [if_neg (by rintro ⟨-, h, -⟩; exact hn h),
          if_neg (by rintro ⟨-, h, -⟩; exact hn h),
          if_neg (by rintro ⟨-, h, -⟩; exact hn h),
          if_neg (by rintro ⟨-, h, -⟩; exact hn h),
          if_neg (by rintro ⟨-, h, -⟩; exact hn h),
          if_neg (by rw [hoc]; decide),
          if_neg (by rw [hoc]; decide)]

/-- Witness for C5: after escrow 1 is released, a second release call on the
already-terminal escrow is rejected and the status is unchanged. -/
theorem c5_terminal_status_immutable_witness :
    escrowS2.status_ 1 = STATUS_RELEASED ∧
    (escrow_commit escrowS2 releaseTxn).status_ 1 = escrowS2.status_ 1 ∧
    escrow_program escrowS2 releaseTxn = none := by
  have hR2 : EscrowReachable escrowS2 :=
    EscrowReachable.step escrowS1 releaseTxn
      (EscrowReachable.step initEscrowState createTxn1 EscrowReachable.init (by decide))
      (by decide)
  have h := c5_terminal_status_immutable escrowS2 releaseTxn 1 hR2 (by decide) (Or.inl rfl)
  exact ⟨rfl, h.1, h.2 rfl (Or.inl rfl) rfl⟩

/-- C9: `get_escrow_status` and `get_escrow_count` are pure reads — whether
they succeed or abort, the stored state is returned unchanged and no
transfer is issued (logging being their only effect), and
`get_escrow_status` succeeds precisely when the escrow id lies in
`[1, escrow_count]`. -/
theorem c9_reads_pure (s : EscrowState) (t : EscrowTxn) (h2 : t.num_app_args = 2) :
    runProg get_escrow_status s t =
      (if 0 < t.arg1 ∧ t.arg1 ≤ s.escrow_count then some (s, []) else none) ∧
    runProg get_escrow_count s t = some (s, []) := by
  constructor
  · rw [status_spec]
    by_cases hc : 0 < t.arg1 ∧ t.arg1 ≤ s.escrow_count
    · rw [if_pos ⟨h2, hc.1, hc.2⟩, if_pos hc]
    · rw [if_neg (by tauto), if_neg hc]
  · exact count_spec s t

/-- Witness for C9 at a concrete in-range status query. -/
theorem c9_reads_pure_witness :
    runProg get_escrow_status escrowS1 statusTxn =
      (if 0 < statusTxn.arg1 ∧ statusTxn.arg1 ≤ escrowS1.escrow_count
       then some (escrowS1, []) else none) ∧
    runProg get_escrow_count escrowS1 statusTxn = some (escrowS1, []) :=
  c9_reads_pure escrowS1 statusTxn rfl

/-- C10: the buyer recorded by a successful `create_escrow` is the sender of
the payment transaction at group index 0 (`Gtxn[0].sender()`), not the
sender of the application call; consequently any later successful
`refund_payment` of that escrow was authorized either as that paying account
or via the timeout, and its payout goes to the paying account. -/
theorem c10_buyer_is_payment_sender (s : EscrowState) (t r : EscrowTxn)
    (hc : (runProg create_escrow s t).isSome = true)
    (hr : r.arg1 = s.escrow_count + 1) :
    (outState s (runProg create_escrow s t)).buyer_ (s.escrow_count + 1) = t.gtxn0_sender ∧
    ((runProg refund_payment (outState s (runProg create_escrow s t)) r).isSome = true →
       (r.sender = t.gtxn0_sender ∨
          (outState s (runProg create_escrow s t)).created_ r.arg1 + 604800 < r.now) ∧
       receivers (runProg refund_payment (outState s (runProg create_escrow s t)) r) =
         [t.gtxn0_sender]) := by
  rw [create_spec] at hc
  split_ifs at hc with hcond
  case neg => simp at hc
  rw [create_spec, if_pos hcond]
  simp only [outState, Option.elim]
  refine ⟨by simp [create_result], ?_⟩
  intro hrs
  rw [refund_spec] at hrs
  split_ifs at hrs with hcond2
  case neg => simp at hrs
  rw [refund_spec, if_pos hcond2]
  constructor
  · rcases hcond2.2.2.2.2.2.1 with h | h
    · left
      rw [h, hr]
      simp [create_result]
    · exact Or.inr h
  · simp [receivers, create_result, hr]

/-- Witness for C10: the application call is sent by an agent while the
payment comes from the buyer account, which ends up recorded, authorized,
and paid on refund. -/
theorem c10_buyer_is_payment_sender_witness :
    (outState initEscrowState (runProg create_escrow initEscrowState createTxn2)).buyer_
        (initEscrowState.escrow_count + 1) = createTxn2.gtxn0_sender ∧
    ((buyerRefundTxn.sender = createTxn2.gtxn0_sender ∨
        (outState initEscrowState (runProg create_escrow initEscrowState createTxn2)).created_
            buyerRefundTxn.arg1 + 604800 < buyerRefundTxn.now) ∧
      receivers (runProg refund_payment
          (outState initEscrowState (runProg create_escrow initEscrowState createTxn2))
          buyerRefundTxn) = [createTxn2.gtxn0_sender]) := by
  have h := c10_buyer_is_payment_sender initEscrowState createTxn2 buyerRefundTxn rfl rfl
  exact ⟨h.1, h.2 rfl⟩

/-! ## Name registry lemmas

The registry's existence test reads the `owner_` key and compares it against
the uint64 `0`.  A registered name stores a byte-string owner, so on any
registered name the comparison panics; on an unregistered name it yields the
honest answer.  Consequently `update`/`transfer`/`delete` — which all begin
with `Assert(globalGet(owner_) != Int(0))` — can never succeed: on a
registered name that comparison panics, and on an unregistered one the
assertion is false. -/

/-- `tealEq` against the uint64 `0` returns `true` only for the uint64 `0`. -/
theorem tealEq_i0_true {a : TealVal} (h : tealEq a (TealVal.i 0) = some true) :
    a = TealVal.i 0 := by
  cases a with
  | i k =>
    simp [tealEq] at h
    rw [h]
  | b x => simp [tealEq] at h

/-- `update_name` aborts on every state and every request. -/
theorem update_name_eq_none (s : NameState) (t : NameTxn) : update_name s t = none := by
  unfold update_name
  split_ifs with a1 a2
  · cases ho : globalGet s.owner_ (nameOf t) with
    | i k =>
      by_cases hk : k = 0 <;> simp [ho, tealNe, tealEq, hk]
    | b x => simp [ho, tealNe, tealEq]
  · rfl
  · rfl

/-- `transfer_name` aborts on every state and every request. -/
theorem transfer_name_eq_none (s : NameState) (t : NameTxn) : transfer_name s t = none := by
  unfold transfer_name
  split_ifs with a1 a2 a3
  · cases ho : globalGet s.owner_ (nameOf t) with
    | i k =>
      by_cases hk : k = 0 <;> simp [ho, tealNe, tealEq, hk]
    | b x => simp [ho, tealNe, tealEq]
  · rfl
  · rfl
  · rfl

/-- `delete_name` aborts on every state and every request. -/
theorem delete_name_eq_none (s : NameState) (t : NameTxn) : delete_name s t = none := by
  unfold delete_name
  split_ifs with a1 a2
  · cases ho : globalGet s.owner_ (nameOf t) with
    | i k =>
      by_cases hk : k = 0 <;> simp [ho, tealNe, tealEq, hk]
    | b x => simp [ho, tealNe, tealEq]
  · rfl
  · rfl

/-- A successful `register_name` found the owner key reading as the uint64
`0` (absent): registration never overwrites an existing owner record. -/
theorem register_requires_free (s : NameState) (t : NameTxn) (x : NameState × List String)
    (hx : register_name s t = some x) : globalGet s.owner_ (nameOf t) = TealVal.i 0 := by
  unfold register_name at hx
  split_ifs at hx with a1 a2 a3
  rcases he : tealEq (globalGet s.owner_ (nameOf t)) (TealVal.i 0) with _ | e
  · simp only [he] at hx
    cases hx
  · simp only [he] at hx
    split_ifs at hx with hcase
    · subst hcase
      exact tealEq_i0_true he

/-- A successful `register_name` stores the caller as the byte-string owner. -/
theorem register_sets_owner (s : NameState) (t : NameTxn) (x : NameState × List String)
    (hx : register_name s t = some x) :
    x.1.owner_ (nameOf t) = some (TealVal.b t.sender) := by
  unfold register_name at hx
  split_ifs at hx with a1 a2 a3
  rcases he : tealEq (globalGet s.owner_ (nameOf t)) (TealVal.i 0) with _ | e
  · simp only [he] at hx
    cases hx
  · simp only [he] at hx
    split_ifs at hx with hcase
    · rcases hp : Btoi (t.args.getD 3 "") with _ | price
      · simp only [hp] at hx
        cases hx
      · simp only [hp] at hx
        injection hx with hx2
        subst hx2
        simp

/-- `register_name` aborts whenever the name already has a byte-string
owner (the zero-sentinel comparison panics). -/
theorem register_none_of_bytes_owner (s : NameState) (t : NameTxn) (b : String)
    (h : s.owner_ (nameOf t) = some (TealVal.b b)) : register_name s t = none := by
  unfold register_name
  split_ifs <;> simp [globalGet, h, tealEq]

/-- A successful `register_name` changes no `owner_` entry holding a
byte-string value (it can only write a previously free name). -/
theorem register_preserves_bytes_owner (s : NameState) (t : NameTxn) (n b : String)
    (h : s.owner_ n = some (TealVal.b b)) (x : NameState × List String)
    (hx : register_name s t = some x) : x.1.owner_ n = some (TealVal.b b) := by
  by_cases hn : n = nameOf t
  · rw [hn] at h
    rw [register_none_of_bytes_owner s t b h] at hx
    cases hx
  · unfold register_name at hx
    split_ifs at hx with a1 a2 a3
    rcases he : tealEq (globalGet s.owner_ (nameOf t)) (TealVal.i 0) with _ | e
    · simp only [he] at hx
      cases hx
    · simp only [he] at hx
      split_ifs at hx with hcase
      · rcases hp : Btoi (t.args.getD 3 "") with _ | price
        · simp only [hp] at hx
          cases hx
        · simp only [hp] at hx
          injection hx with hx2
          subst hx2
          simp [hn, h]

/-- A successful `resolve_name` returns the state unchanged. -/
theorem resolve_name_state (s : NameState) (t : NameTxn) (x : NameState × List String)
    (hx : resolve_name s t = some x) : x.1 = s := by
  unfold resolve_name at hx
  split_ifs at hx with a1 a2
  rcases he : tealNe (globalGet s.owner_ (nameOf t)) (TealVal.i 0) with _ | e
  · simp only [he] at hx
    cases hx
  · simp only [he] at hx
    split_ifs at hx
    · injection hx with hx2
      subst hx2
      rfl

/-- A successful `name_exists` returns the state unchanged. -/
theorem name_exists_state (s : NameState) (t : NameTxn) (x : NameState × List String)
    (hx : name_exists s t = some x) : x.1 = s := by
  unfold name_exists at hx
  split_ifs at hx with a1 a2
  rcases he : tealNe (globalGet s.owner_ (nameOf t)) (TealVal.i 0) with _ | e
  · simp only [he] at hx
    cases hx
  · simp only [he] at hx
    injection hx with hx2
    subst hx2
    rfl

/-- Once a name's `owner_` entry holds a byte-string value, no sequence of
committed registry requests ever changes it. -/
theorem evolves_preserves_bytes_owner (n b : String) (s1 s2 : NameState)
    (h : NameEvolves s1 s2) (hb : s1.owner_ n = some (TealVal.b b)) :
    s2.owner_ n = some (TealVal.b b) := by
  induction h with
  | refl => exact hb
  | step s' t h ih =>
    unfold name_commit name_program
    split_ifs with m1 m2 m3 m4 m5 m6
    · rcases hx : register_name s' t with _ | x
      · exact ih
      · exact register_preserves_bytes_owner s' t n b ih x hx
    · rcases hx : resolve_name s' t with _ | x
      · exact ih
      · show x.1.owner_ n = some (TealVal.b b)
        rw [resolve_name_state s' t x hx]
        exact ih
    · rw [update_name_eq_none]
      exact ih
    · rw [transfer_name_eq_none]
      exact ih
    · rw [delete_name_eq_none]
      exact ih
    · rcases hx : name_exists s' t with _ | x
      · exact ih
      · show x.1.owner_ n = some (TealVal.b b)
        rw [name_exists_state s' t x hx]
        exact ih
    · exact ih

/-! ## Claims about the registries -/

/-- C6: a successful `register` found the name unowned (it never overwrites
an existing owner record), and after it commits, every later `register` of
the same name — by any caller, after any sequence of committed registry
requests — fails.  The failure rests on the zero-sentinel test: a registered
name holds a byte-string owner, which the comparison against the uint64 `0`
can never report equal (it panics instead). -/
theorem c6_register_unique (s : NameState) (t : NameTxn)
    (hreg : (register_name s t).isSome = true) :
    globalGet s.owner_ (nameOf t) = TealVal.i 0 ∧
    (∀ s2, NameEvolves (outNameState s (register_name s t)) s2 →
       ∀ t2, nameOf t2 = nameOf t → register_name s2 t2 = none) := by
  obtain ⟨x, hx⟩ := Option.isSome_iff_exists.mp hreg
  refine ⟨register_requires_free s t x hx, ?_⟩
  intro s2 hev t2 hn2
  have hown : (outNameState s (register_name s t)).owner_ (nameOf t) =
      some (TealVal.b t.sender) := by
    rw [hx]
    exact register_sets_owner s t x hx
  have hown2 := evolves_preserves_bytes_owner (nameOf t) t.sender _ s2 hev hown
  have hown3 : s2.owner_ (nameOf t2) = some (TealVal.b t.sender) := by
    rw [hn2]
    exact hown2
  exact register_none_of_bytes_owner s2 t2 t.sender hown3

/-- Witness for C6: after `OWNERA` registers `alice.desci`, a second
register of the same name by `OWNERB` on the committed state fails. -/
theorem c6_register_unique_witness :
    globalGet initNameState.owner_ (nameOf regTxn1) = TealVal.i 0 ∧
    register_name nameS1 regTxn2 = none := by
  have h := c6_register_unique initNameState regTxn1 rfl
  exact ⟨h.1, h.2 nameS1 (NameEvolves.refl nameS1) regTxn2 rfl⟩

/-- C7 (code bug): `delete` can never succeed.  On a registered name its
very first check, `Assert(globalGet(owner_) != Int(0))`, compares the stored
byte-string owner with a uint64 and panics; on an unregistered name the
assertion is false.  Concretely, `OWNERA` owns `alice.desci` yet the
owner's own `delete("alice.desci")` aborts — so the claimed
delete-then-reregister round trip has no successful delete to start from. -/
theorem c7_delete_never_succeeds :
    nameS1.owner_ "alice.desci" = some (TealVal.b "OWNERA") ∧
    delTxn1.sender = "OWNERA" ∧ nameOf delTxn1 = "alice.desci" ∧
    delete_name nameS1 delTxn1 = none ∧
    (∀ (s : NameState) (t : NameTxn), delete_name s t = none) :=
  ⟨rfl, rfl, rfl, delete_name_eq_none nameS1 delTxn1, delete_name_eq_none⟩

/-- C8 (code bug): `name_exists` indeed never errors on a well-formed
nonexistent name, but `model_exists` errors on EVERY nonexistent model id.
For `model_id = 0` the explicit assert aborts; for any id whose `cid_` key
is absent (every unpublished id), TEAL `And` still evaluates
`Len(App.globalGet(cid_ ++ Itob(id)))` even though the range check is
false, the absent key reads as the uint64 `0`, and the AVM `len` opcode
panics on a uint64 — so the code's own `MODEL_EXISTS:0` branch is
unreachable for absent records and the call aborts instead of reporting
`0` as the spec intends. -/
theorem c8_exists_code_bug :
    (∀ (ms : ModelState) (id : Nat), ms.cid_ id = none →
       model_exists ms 2 id = none) ∧
    model_exists initModelState 2 5 = none ∧
    model_exists initModelState 2 0 = none ∧
    (∀ (ns : NameState) (t : NameTxn), t.args.length = 2 →
       0 < (nameOf t).length → (nameOf t).length ≤ 64 →
       ns.owner_ (nameOf t) = none →
       name_exists ns t = some (ns, ["EXISTS:" ++ nameOf t ++ ":" ++ "0"])) := by
  refine ⟨?_, rfl, rfl, ?_⟩
  · intro ms id habs
    unfold model_exists
    rw [if_pos rfl]
    by_cases hpos : 0 < id
    · rw [if_pos hpos, habs]
      rfl
    · rw [if_neg hpos]
  · intro ns t h2 hl1 hl64 habs
    unfold name_exists
    rw [if_pos h2, if_pos ⟨hl1, hl64⟩]
    simp [globalGet, habs, tealNe, tealEq]

/-- Witness for C8's code-bug theorem at its concrete failing input: the
unpublished id 5 aborts while a never-registered name reports `0`. -/
theorem c8_exists_code_bug_witness :
    initModelState.cid_ 5 = none ∧
    model_exists initModelState 2 5 = none ∧
    name_exists initNameState existsTxn =
      some (initNameState, ["EXISTS:" ++ nameOf existsTxn ++ ":" ++ "0"]) :=
  ⟨rfl, c8_exists_code_bug.1 initModelState 5 rfl,
   c8_exists_code_bug.2.2.2 initNameState existsTxn rfl (by decide) (by decide) rfl⟩
